import Mathlib

/-!
# Verification of the Weaviate cluster join/bootstrap core

Shallow embedding of `cluster/bootstrap/joiner.go` (`Joiner.Do`) and of
`ResolveRemoteNodes` (whose body is exercised by `cluster/service_test.go`),
together with theorems settling the specification's claims about them.

Modelling conventions:
* Go maps iterated by `range` are modelled as association lists in iteration
  order (Go's iteration order is unspecified; the list fixes one order).
* The `PeerJoiner` capability is an oracle `join : Nat → String → JoinPeerRequest
  → JoinResult` indexed by the number of Join RPCs issued so far in the current
  `Do` invocation, so every sequential behaviour of the transport is covered.
  The oracle depends only on the call index, destination address and request:
  the transport is insensitive to tracing values carried by the context (§6 of
  the spec treats telemetry as observability only).
* `context.Context` is modelled by which backoff wait (0-indexed) observes the
  context as done, the string `ctx.Err()` would render to, and the opaque value
  chain (used only by the sentry span).
* Machine integers do not overflow in this code path; counters are `Nat`.
-/

namespace WeaviateBootstrap

/-- gRPC status codes (`google.golang.org/grpc/codes`) restricted to the values
the joiner distinguishes; `status.Convert` on a non-status error yields
`unknown`. -/
inductive Code where
  | ok
  | unknown
  | notFound
  | resourceExhausted
  | other (n : Nat)
deriving DecidableEq, Repr

/-- `cmd.JoinPeerRequest`: the payload `Joiner.Do` builds once and reuses for
every attempt (`{Id: j.localNodeID, Address: j.localRaftAddr, Voter: j.voter}`). -/
structure JoinPeerRequest where
  Id : String
  Address : String
  Voter : Bool
deriving DecidableEq, Repr

/-- `cmd.JoinPeerResponse`: carries the leader address reported by a contacted
node that is not itself the leader. -/
structure JoinPeerResponse where
  Leader : String
deriving DecidableEq, Repr

/-- Protobuf nil-safe getter: `resp.GetLeader()` returns `""` when `resp` is
nil, the `Leader` field otherwise. -/
def GetLeader : Option JoinPeerResponse → String
  | none => ""
  | some r => r.Leader

/-- A non-nil error returned by a `Join` RPC, with the gRPC status code
`status.Convert(err).Code()` extracts from it and its rendered message. -/
structure JoinError where
  code : Code
  msg : String
deriving DecidableEq, Repr

/-- Result of one `PeerJoiner.Join` call: the `(resp, err)` pair, with
`err == nil` on success. On failure the response may be nil. -/
inductive JoinResult where
  | ok (resp : Option JoinPeerResponse)
  | fail (resp : Option JoinPeerResponse) (err : JoinError)
deriving DecidableEq, Repr

/-- `context.Context` as the joiner observes it: `doneAt b` tells whether the
context is done by the time the `b`-th backoff `select` runs, `errMsg` is what
`ctx.Err()` renders to, and `values` is the context value chain (only the
sentry span ever adds to it; the loop never reads it). -/
structure Ctx where
  doneAt : Nat → Bool
  errMsg : String
  values : List (String × String)

/-- The `PeerJoiner` capability as a sequential oracle: the result of the
`k`-th Join RPC of the current `Do` invocation, given its destination address
and the (constant) request. -/
structure Env where
  join : Nat → String → JoinPeerRequest → JoinResult

/-- The `Joiner` struct (its `peerJoiner` field is the `Env` oracle). -/
structure Joiner where
  localRaftAddr : String
  localNodeID : String
  voter : Bool
deriving DecidableEq, Repr

/-- `NewJoiner` returns a `Joiner` configured with `localNodeID`,
`localRaftAddr` and `voter`. -/
def NewJoiner (localNodeID localRaftAddr : String) (voter : Bool) : Joiner :=
  { localRaftAddr := localRaftAddr, localNodeID := localNodeID, voter := voter }

/-- Go's `strings.Join(elems, sep)`. -/
def stringsJoin : List String → String → String
  | [], _ => ""
  | [e], _ => e
  | e :: f :: t, sep => e ++ sep ++ stringsJoin (f :: t) sep

/-- `fmt`'s `%v` rendering of a `map[string]string`, `map[k1:v1 k2:v2]`.
(Go prints map keys sorted; the claims proved below only use which entries
occur in the text, which is order-independent, so the model renders in the
association list's order.) -/
def renderMap (m : List (String × String)) : String :=
  "map[" ++ stringsJoin (m.map fun p => p.1 ++ ":" ++ p.2) " " ++ "]"

/-- The two kinds of non-nil error `Joiner.Do` can return: the context's error
from the backoff `select`, or the terminal aggregation
`fmt.Errorf("could not join a cluster from %v[: %s]", remoteNodes, ...)`. -/
inductive DoErr where
  | ctxCancelled (msg : String)
  | couldNotJoin (remote : List (String × String)) (errs : List String)
deriving DecidableEq, Repr

/-- The rendered error message of a `DoErr`, following the `fmt.Errorf`
format strings in `Joiner.Do`. -/
def DoErr.message : DoErr → String
  | .ctxCancelled m => m
  | .couldNotJoin remote errs =>
    if errs.isEmpty then "could not join a cluster from " ++ renderMap remote
    else "could not join a cluster from " ++ renderMap remote ++ ": "
      ++ stringsJoin errs "; "

/-- Outcome of the candidate loop inside `Joiner.Do`, before the function
epilogue renders it into `(string, error)`. -/
inductive DoRes where
  | joined (addr : String)
  | ctxCancelled
  | exhausted (errs : List String)
deriving DecidableEq, Repr

/-- Loop result together with its observable trace: the destinations of every
Join RPC issued (in order) and the number of completed 50 ms backoff waits. -/
structure LoopOut where
  res : DoRes
  calls : List String
  backoffs : Nat
deriving DecidableEq, Repr

/-- The `for name, addr := range remoteNodes` loop of `Joiner.Do`, with the
state it threads: `k` Join RPCs issued so far, `b` completed backoff waits,
`calls` the RPC trace, `errs` the recorded failure strings.

Mirrors `joiner.go` lines 73-115: skip the entry named like the local node;
try `Join(addr)`; on success return `addr`; on failure, if the status code is
`ResourceExhausted` and the response's leader is non-empty, try the leader and
on success return it, otherwise record `leader(L): err`; for other failures
record `name(addr): err`; then the backoff `select` either returns the
context's error or waits 50 ms and continues. -/
def doLoop (env : Env) (ctx : Ctx) (localNodeID : String) (req : JoinPeerRequest) :
    List (String × String) → Nat → Nat → List String → List String → LoopOut
  | [], _, b, calls, errs => { res := DoRes.exhausted errs, calls := calls, backoffs := b }
  | (name, addr) :: rest, k, b, calls, errs =>
    if name = localNodeID then
      doLoop env ctx localNodeID req rest k b calls errs
    else
      match env.join k addr req with
      | JoinResult.ok _ =>
        { res := DoRes.joined addr, calls := calls ++ [addr], backoffs := b }
      | JoinResult.fail resp e =>
        if e.code = Code.resourceExhausted ∧ GetLeader resp ≠ "" then
          match env.join (k + 1) (GetLeader resp) req with
          | JoinResult.ok _ =>
            { res := DoRes.joined (GetLeader resp)
              calls := calls ++ [addr, GetLeader resp], backoffs := b }
          | JoinResult.fail _ e2 =>
            if ctx.doneAt b then
              { res := DoRes.ctxCancelled
                calls := calls ++ [addr, GetLeader resp], backoffs := b }
            else
              doLoop env ctx localNodeID req rest (k + 2) (b + 1)
                (calls ++ [addr, GetLeader resp])
                (errs ++ ["leader(" ++ GetLeader resp ++ "): " ++ e2.msg])
        else
          if ctx.doneAt b then
            { res := DoRes.ctxCancelled, calls := calls ++ [addr], backoffs := b }
          else
            doLoop env ctx localNodeID req rest (k + 1) (b + 1) (calls ++ [addr])
              (errs ++ [name ++ "(" ++ addr ++ "): " ++ e.msg])

/-- A sentry tracing span, as started by `Joiner.Do` when sentry is enabled. -/
structure Span where
  op : String
  name : String
  description : String
  data : List (String × String)

/-- `span.Context()`: the span's context derives from the original one,
adding the span as a context value; done-ness and `ctx.Err()` are inherited
unchanged. -/
def Span.context (s : Span) (ctx : Ctx) : Ctx :=
  { ctx with values := ("sentry.span", s.name) :: ctx.values }

/-- The span `Joiner.Do` starts: name `raft.bootstrap.join`, op `join`,
with the candidate set attached as span data. -/
def joinSpan (remoteNodes : List (String × String)) : Span :=
  { op := "join", name := "raft.bootstrap.join"
    description := "Attempt to join an existing cluster"
    data := [("servers", renderMap remoteNodes)] }

/-- The context the candidate loop runs under: the span's derived context when
sentry is enabled, the caller's context otherwise. -/
def doCtx (sentryEnabled : Bool) (remoteNodes : List (String × String)) (ctx0 : Ctx) : Ctx :=
  if sentryEnabled then Span.context (joinSpan remoteNodes) ctx0 else ctx0

/-- The request `Joiner.Do` builds once per invocation. -/
def mkJoinReq (j : Joiner) : JoinPeerRequest :=
  { Id := j.localNodeID, Address := j.localRaftAddr, Voter := j.voter }

/-- The observable result of one `Joiner.Do` invocation: the returned
`(leaderAddr, err)` pair plus the trace of issued Join RPCs and completed
backoff waits. -/
structure DoOutcome where
  leaderAddr : String
  err : Option DoErr
  calls : List String
  backoffs : Nat
deriving DecidableEq, Repr

/-- `Joiner.Do(ctx, lg, remoteNodes)`: start the optional sentry span, build
the request, run the candidate loop, and render the loop's outcome into the
returned `(string, error)` pair (`joiner.go` lines 50-121). -/
def Joiner.Do (j : Joiner) (sentryEnabled : Bool) (env : Env) (ctx0 : Ctx)
    (remoteNodes : List (String × String)) : DoOutcome :=
  let ctx := doCtx sentryEnabled remoteNodes ctx0
  let req := mkJoinReq j
  match doLoop env ctx j.localNodeID req remoteNodes 0 0 [] [] with
  | { res := DoRes.joined a, calls := cs, backoffs := bo } =>
    { leaderAddr := a, err := none, calls := cs, backoffs := bo }
  | { res := DoRes.ctxCancelled, calls := cs, backoffs := bo } =>
    { leaderAddr := "", err := some (DoErr.ctxCancelled ctx.errMsg)
      calls := cs, backoffs := bo }
  | { res := DoRes.exhausted errs, calls := cs, backoffs := bo } =>
    { leaderAddr := "", err := some (DoErr.couldNotJoin remoteNodes errs)
      calls := cs, backoffs := bo }

/-! ## Step lemmas: one unfolding of the candidate loop per control-flow branch -/

theorem doLoop_skip {env : Env} {ctx : Ctx} {lid : String} {req : JoinPeerRequest}
    {name addr : String} {rest : List (String × String)} {k b : Nat}
    {calls errs : List String} (h : name = lid) :
    doLoop env ctx lid req ((name, addr) :: rest) k b calls errs =
      doLoop env ctx lid req rest k b calls errs := by
  simp [doLoop, h]

theorem doLoop_ok {env : Env} {ctx : Ctx} {lid : String} {req : JoinPeerRequest}
    {name addr : String} {rest : List (String × String)} {k b : Nat}
    {calls errs : List String} {resp : Option JoinPeerResponse}
    (h1 : ¬name = lid) (h2 : env.join k addr req = JoinResult.ok resp) :
    doLoop env ctx lid req ((name, addr) :: rest) k b calls errs =
      { res := DoRes.joined addr, calls := calls ++ [addr], backoffs := b } := by
  simp [doLoop, h1, h2]

theorem doLoop_leader_ok {env : Env} {ctx : Ctx} {lid : String} {req : JoinPeerRequest}
    {name addr : String} {rest : List (String × String)} {k b : Nat}
    {calls errs : List String} {resp r2 : Option JoinPeerResponse} {e : JoinError}
    (h1 : ¬name = lid) (h2 : env.join k addr req = JoinResult.fail resp e)
    (h3 : e.code = Code.resourceExhausted) (h4 : ¬GetLeader resp = "")
    (h5 : env.join (k + 1) (GetLeader resp) req = JoinResult.ok r2) :
    doLoop env ctx lid req ((name, addr) :: rest) k b calls errs =
      { res := DoRes.joined (GetLeader resp)
        calls := calls ++ [addr, GetLeader resp], backoffs := b } := by
  simp [doLoop, h1, h2, h3, h4, h5]

theorem doLoop_leader_fail {env : Env} {ctx : Ctx} {lid : String} {req : JoinPeerRequest}
    {name addr : String} {rest : List (String × String)} {k b : Nat}
    {calls errs : List String} {resp r2 : Option JoinPeerResponse} {e e2 : JoinError}
    (h1 : ¬name = lid) (h2 : env.join k addr req = JoinResult.fail resp e)
    (h3 : e.code = Code.resourceExhausted) (h4 : ¬GetLeader resp = "")
    (h5 : env.join (k + 1) (GetLeader resp) req = JoinResult.fail r2 e2) :
    doLoop env ctx lid req ((name, addr) :: rest) k b calls errs =
      if ctx.doneAt b then
        { res := DoRes.ctxCancelled
          calls := calls ++ [addr, GetLeader resp], backoffs := b }
      else
        doLoop env ctx lid req rest (k + 2) (b + 1)
          (calls ++ [addr, GetLeader resp])
          (errs ++ ["leader(" ++ GetLeader resp ++ "): " ++ e2.msg]) := by
  simp [doLoop, h1, h2, h3, h4, h5]

theorem doLoop_plain_fail {env : Env} {ctx : Ctx} {lid : String} {req : JoinPeerRequest}
    {name addr : String} {rest : List (String × String)} {k b : Nat}
    {calls errs : List String} {resp : Option JoinPeerResponse} {e : JoinError}
    (h1 : ¬name = lid) (h2 : env.join k addr req = JoinResult.fail resp e)
    (h3 : ¬(e.code = Code.resourceExhausted ∧ ¬GetLeader resp = "")) :
    doLoop env ctx lid req ((name, addr) :: rest) k b calls errs =
      if ctx.doneAt b then
        { res := DoRes.ctxCancelled, calls := calls ++ [addr], backoffs := b }
      else
        doLoop env ctx lid req rest (k + 1) (b + 1) (calls ++ [addr])
          (errs ++ [name ++ "(" ++ addr ++ "): " ++ e.msg]) := by
  simp only [doLoop]
  rw [if_neg h1, h2]
  simp only [if_neg h3]

/-! ## Helper lemmas about the loop and the error rendering -/

/-- The candidate loop reads the context only through `doneAt`: runs under two
contexts that agree on done-ness are identical. -/
theorem doLoop_doneAt_congr (env : Env) {c1 c2 : Ctx} (h : c1.doneAt = c2.doneAt)
    (lid : String) (req : JoinPeerRequest) :
    ∀ (ns : List (String × String)) (k b : Nat) (calls errs : List String),
      doLoop env c1 lid req ns k b calls errs = doLoop env c2 lid req ns k b calls errs := by
  intro ns
  induction ns with
  | nil => intro k b calls errs; rfl
  | cons p rest ih =>
    intro k b calls errs
    obtain ⟨name, addr⟩ := p
    by_cases hn : name = lid
    · rw [doLoop_skip hn, doLoop_skip hn]; exact ih k b calls errs
    · cases hj : env.join k addr req with
      | ok r => rw [doLoop_ok hn hj, doLoop_ok hn hj]
      | fail resp e =>
        by_cases hc : e.code = Code.resourceExhausted ∧ ¬GetLeader resp = ""
        · cases hj2 : env.join (k + 1) (GetLeader resp) req with
          | ok r2 => rw [doLoop_leader_ok hn hj hc.1 hc.2 hj2,
              doLoop_leader_ok hn hj hc.1 hc.2 hj2]
          | fail r2 e2 =>
            rw [doLoop_leader_fail hn hj hc.1 hc.2 hj2,
              doLoop_leader_fail hn hj hc.1 hc.2 hj2, h]
            by_cases hd : c2.doneAt b
            · rw [if_pos hd, if_pos hd]
            · rw [if_neg hd, if_neg hd]; exact ih ..
        · rw [doLoop_plain_fail hn hj hc, doLoop_plain_fail hn hj hc, h]
          by_cases hd : c2.doneAt b
          · rw [if_pos hd, if_pos hd]
          · rw [if_neg hd, if_neg hd]; exact ih ..

/-- A candidate list consisting solely of entries named like the local node is
skipped entirely: the loop terminates with the errors and trace it started
with, and no backoff runs. -/
theorem doLoop_skip_all (env : Env) (ctx : Ctx) (lid : String) (req : JoinPeerRequest) :
    ∀ {ns : List (String × String)}, (∀ p ∈ ns, p.1 = lid) →
      ∀ (k b : Nat) (calls errs : List String),
        doLoop env ctx lid req ns k b calls errs =
          { res := DoRes.exhausted errs, calls := calls, backoffs := b } := by
  intro ns
  induction ns with
  | nil => intro _ k b calls errs; rfl
  | cons p rest ih =>
    intro h k b calls errs
    obtain ⟨name, addr⟩ := p
    rw [doLoop_skip (h (name, addr) (List.mem_cons_self _ _))]
    exact ih (fun q hq => h q (List.mem_cons_of_mem _ hq)) k b calls errs

/-- `doCtx` never changes what `ctx.Err()` renders to. -/
theorem doCtx_errMsg (s : Bool) (ns : List (String × String)) (c : Ctx) :
    (doCtx s ns c).errMsg = c.errMsg := by
  cases s <;> rfl

/-- `doCtx` never changes when the context observes cancellation. -/
theorem doCtx_doneAt (s : Bool) (ns : List (String × String)) (c : Ctx) :
    (doCtx s ns c).doneAt = c.doneAt := by
  cases s <;> rfl

/-- How `Joiner.Do` renders the loop's outcome into its returned
`(leaderAddr, err)` pair. -/
theorem Do_eq_of_loop {j : Joiner} {s : Bool} {env : Env} {ctx0 : Ctx}
    {nodes : List (String × String)} {out : LoopOut}
    (h : doLoop env (doCtx s nodes ctx0) j.localNodeID (mkJoinReq j) nodes 0 0 [] [] = out) :
    j.Do s env ctx0 nodes =
      match out with
      | { res := DoRes.joined a, calls := cs, backoffs := bo } =>
        { leaderAddr := a, err := none, calls := cs, backoffs := bo }
      | { res := DoRes.ctxCancelled, calls := cs, backoffs := bo } =>
        { leaderAddr := "", err := some (DoErr.ctxCancelled ctx0.errMsg)
          calls := cs, backoffs := bo }
      | { res := DoRes.exhausted es, calls := cs, backoffs := bo } =>
        { leaderAddr := "", err := some (DoErr.couldNotJoin nodes es)
          calls := cs, backoffs := bo } := by
  obtain ⟨res, cs, bo⟩ := out
  cases res <;> simp [Joiner.Do, h, doCtx_errMsg]

/-- Every element of a list is a contiguous piece of its `strings.Join`. -/
theorem stringsJoin_mem {e : String} (sep : String) :
    ∀ {xs : List String}, e ∈ xs → ∃ l r, stringsJoin xs sep = l ++ e ++ r := by
  intro xs
  induction xs with
  | nil => intro h; cases h
  | cons x t ih =>
    intro h
    cases t with
    | nil =>
      have hx : e = x := by
        cases h with
        | head => rfl
        | tail _ h2 => cases h2
      subst hx
      exact ⟨"", "", by simp [stringsJoin, String.empty_append, String.append_empty]⟩
    | cons y u =>
      cases h with
      | head =>
        refine ⟨"", sep ++ stringsJoin (y :: u) sep, ?_⟩
        simp [stringsJoin, String.empty_append, String.append_assoc]
      | tail _ h2 =>
        obtain ⟨l, r, hl⟩ := ih h2
        refine ⟨x ++ sep ++ l, r, ?_⟩
        simp [stringsJoin, hl, String.append_assoc]

/-- Every entry of the map appears as `name:addr` inside its `%v` rendering. -/
theorem renderMap_mem {m : List (String × String)} {name addr : String}
    (h : (name, addr) ∈ m) :
    ∃ l r, renderMap m = l ++ (name ++ ":" ++ addr) ++ r := by
  have hm : name ++ ":" ++ addr ∈ m.map (fun p => p.1 ++ ":" ++ p.2) := by
    exact List.mem_map_of_mem _ h
  obtain ⟨l, r, hl⟩ := stringsJoin_mem " " hm
  refine ⟨"map[" ++ l, r ++ "]", ?_⟩
  rw [renderMap, hl]
  simp [String.append_assoc]

/-- The rendered exhaustion error mentions every `remoteNodes` entry. -/
theorem couldNotJoin_mentions_entry {remote : List (String × String)}
    (errs : List String) {name addr : String} (h : (name, addr) ∈ remote) :
    ∃ l r, (DoErr.couldNotJoin remote errs).message = l ++ (name ++ ":" ++ addr) ++ r := by
  obtain ⟨l, r, hl⟩ := renderMap_mem h
  rw [DoErr.message]
  by_cases he : errs.isEmpty
  · refine ⟨"could not join a cluster from " ++ l, r, ?_⟩
    rw [if_pos he, hl]
    simp [String.append_assoc]
  · refine ⟨"could not join a cluster from " ++ l, r ++ ": " ++ stringsJoin errs "; ", ?_⟩
    rw [if_neg he, hl]
    simp [String.append_assoc]

/-- The rendered exhaustion error mentions every recorded failure string. -/
theorem couldNotJoin_mentions_err {remote : List (String × String)}
    {errs : List String} {e : String} (h : e ∈ errs) :
    ∃ l r, (DoErr.couldNotJoin remote errs).message = l ++ e ++ r := by
  obtain ⟨l, r, hl⟩ := stringsJoin_mem "; " h
  have hne : ¬errs.isEmpty := by
    cases errs with
    | nil => cases h
    | cons x t => simp [List.isEmpty]
  rw [DoErr.message, if_neg hne, hl]
  refine ⟨("could not join a cluster from " ++ renderMap remote ++ ": ") ++ l, r, ?_⟩
  simp [String.append_assoc]

/-! ## Claim theorems -/

/-- C1: for every candidate set and every candidate whose `Join` call returns
no error, `Joiner.Do` returns that candidate's address together with a nil
error immediately, and no Join RPC is issued to any later candidate in that
invocation (the RPC trace ends with that candidate's address). The second
conjunct maps the loop's success outcome to `Do`'s returned pair. -/
theorem joiner_success_short_circuit
    (env : Env) (ctx : Ctx) (lid : String) (req : JoinPeerRequest)
    (name addr : String) (rest : List (String × String))
    (k b : Nat) (calls errs : List String) (resp : Option JoinPeerResponse)
    (h1 : ¬name = lid) (h2 : env.join k addr req = JoinResult.ok resp) :
    doLoop env ctx lid req ((name, addr) :: rest) k b calls errs =
      { res := DoRes.joined addr, calls := calls ++ [addr], backoffs := b } ∧
    ∀ (j : Joiner) (s : Bool) (env2 : Env) (ctx0 : Ctx)
      (nodes : List (String × String)) (a : String) (cs : List String) (bo : Nat),
      doLoop env2 (doCtx s nodes ctx0) j.localNodeID (mkJoinReq j) nodes 0 0 [] [] =
        { res := DoRes.joined a, calls := cs, backoffs := bo } →
      j.Do s env2 ctx0 nodes =
        { leaderAddr := a, err := none, calls := cs, backoffs := bo } := by
  constructor
  · exact doLoop_ok h1 h2
  · intro j s env2 ctx0 nodes a cs bo h
    rw [Do_eq_of_loop h]

/-- Witness for C1: a run whose second candidate set entry is never reached
because the first candidate's `Join` succeeds. -/
theorem joiner_success_short_circuit_witness :
    doLoop ⟨fun _ _ _ => JoinResult.ok none⟩ ⟨fun _ => false, "context canceled", []⟩
        "n1" ⟨"n1", "a1", true⟩ [("n2", "a2"), ("n3", "a3")] 0 0 [] [] =
      { res := DoRes.joined "a2", calls := ["a2"], backoffs := 0 } ∧
    Joiner.Do ⟨"a1", "n1", true⟩ false ⟨fun _ _ _ => JoinResult.ok none⟩
        ⟨fun _ => false, "context canceled", []⟩ [("n2", "a2"), ("n3", "a3")] =
      { leaderAddr := "a2", err := none, calls := ["a2"], backoffs := 0 } :=
  ⟨(joiner_success_short_circuit ⟨fun _ _ _ => JoinResult.ok none⟩
      ⟨fun _ => false, "context canceled", []⟩ "n1" ⟨"n1", "a1", true⟩
      "n2" "a2" [("n3", "a3")] 0 0 [] [] none (by decide) rfl).1,
   (joiner_success_short_circuit ⟨fun _ _ _ => JoinResult.ok none⟩
      ⟨fun _ => false, "context canceled", []⟩ "n1" ⟨"n1", "a1", true⟩
      "n2" "a2" [("n3", "a3")] 0 0 [] [] none (by decide) rfl).2
     ⟨"a1", "n1", true⟩ false ⟨fun _ _ _ => JoinResult.ok none⟩
     ⟨fun _ => false, "context canceled", []⟩ [("n2", "a2"), ("n3", "a3")]
     "a2" ["a2"] 0 rfl⟩

/-- C2: a candidate failing with `ResourceExhausted` and a non-empty leader
field triggers a follow-up Join to that leader within the same candidate's
turn (the trace gains `[addr, leader]`); a successful follow-up returns the
leader address (and `Do` renders it with a nil error, third conjunct); a
failed follow-up records `leader(L): err` and continues with the next outer
candidate instead of aborting. -/
theorem joiner_leader_follow
    (env : Env) (ctx : Ctx) (lid : String) (req : JoinPeerRequest)
    (name addr : String) (rest : List (String × String))
    (k b : Nat) (calls errs : List String)
    (resp : Option JoinPeerResponse) (e : JoinError)
    (h1 : ¬name = lid) (h2 : env.join k addr req = JoinResult.fail resp e)
    (h3 : e.code = Code.resourceExhausted) (h4 : ¬GetLeader resp = "") :
    (∀ r2, env.join (k + 1) (GetLeader resp) req = JoinResult.ok r2 →
      doLoop env ctx lid req ((name, addr) :: rest) k b calls errs =
        { res := DoRes.joined (GetLeader resp)
          calls := calls ++ [addr, GetLeader resp], backoffs := b }) ∧
    (∀ r2 e2, env.join (k + 1) (GetLeader resp) req = JoinResult.fail r2 e2 →
      ctx.doneAt b = false →
      doLoop env ctx lid req ((name, addr) :: rest) k b calls errs =
        doLoop env ctx lid req rest (k + 2) (b + 1)
          (calls ++ [addr, GetLeader resp])
          (errs ++ ["leader(" ++ GetLeader resp ++ "): " ++ e2.msg])) ∧
    (∀ (j : Joiner) (s : Bool) (env2 : Env) (ctx0 : Ctx)
      (nodes : List (String × String)) (a : String) (cs : List String) (bo : Nat),
      doLoop env2 (doCtx s nodes ctx0) j.localNodeID (mkJoinReq j) nodes 0 0 [] [] =
        { res := DoRes.joined a, calls := cs, backoffs := bo } →
      j.Do s env2 ctx0 nodes =
        { leaderAddr := a, err := none, calls := cs, backoffs := bo }) := by
  refine ⟨?_, ?_, ?_⟩
  · intro r2 h5
    exact doLoop_leader_ok h1 h2 h3 h4 h5
  · intro r2 e2 h5 hd
    rw [doLoop_leader_fail h1 h2 h3 h4 h5, if_neg (by rw [hd]; exact Bool.false_ne_true)]
  · intro j s env2 ctx0 nodes a cs bo h
    rw [Do_eq_of_loop h]

/-- Witness for C2: the leader-follow succeeding (first run) and failing with
the loop continuing to the next candidate (second run). -/
theorem joiner_leader_follow_witness :
    doLoop ⟨fun k _ _ => if k = 0
          then JoinResult.fail (some ⟨"aL"⟩) ⟨Code.resourceExhausted, "not leader"⟩
          else JoinResult.ok none⟩
        ⟨fun _ => false, "context canceled", []⟩ "n1" ⟨"n1", "a1", true⟩
        [("n2", "a2")] 0 0 [] [] =
      { res := DoRes.joined "aL", calls := ["a2", "aL"], backoffs := 0 } ∧
    doLoop ⟨fun _ _ _ => JoinResult.fail (some ⟨"aL"⟩) ⟨Code.resourceExhausted, "busy"⟩⟩
        ⟨fun _ => false, "context canceled", []⟩ "n1" ⟨"n1", "a1", true⟩
        [("n2", "a2"), ("n3", "a3")] 0 0 [] [] =
      doLoop ⟨fun _ _ _ => JoinResult.fail (some ⟨"aL"⟩) ⟨Code.resourceExhausted, "busy"⟩⟩
        ⟨fun _ => false, "context canceled", []⟩ "n1" ⟨"n1", "a1", true⟩
        [("n3", "a3")] 2 1 ["a2", "aL"] ["leader(aL): busy"] :=
  ⟨(joiner_leader_follow ⟨fun k _ _ => if k = 0
        then JoinResult.fail (some ⟨"aL"⟩) ⟨Code.resourceExhausted, "not leader"⟩
        else JoinResult.ok none⟩
      ⟨fun _ => false, "context canceled", []⟩ "n1" ⟨"n1", "a1", true⟩
      "n2" "a2" [] 0 0 [] [] (some ⟨"aL"⟩) ⟨Code.resourceExhausted, "not leader"⟩
      (by decide) rfl rfl (by decide)).1 none rfl,
   (joiner_leader_follow ⟨fun _ _ _ => JoinResult.fail (some ⟨"aL"⟩)
        ⟨Code.resourceExhausted, "busy"⟩⟩
      ⟨fun _ => false, "context canceled", []⟩ "n1" ⟨"n1", "a1", true⟩
      "n2" "a2" [("n3", "a3")] 0 0 [] [] (some ⟨"aL"⟩) ⟨Code.resourceExhausted, "busy"⟩
      (by decide) rfl rfl (by decide)).2.1 (some ⟨"aL"⟩) ⟨Code.resourceExhausted, "busy"⟩
     rfl rfl⟩

/-- C3 counterexample: with local node id `n1` and local Raft address `a1`,
the candidate set `[("n2", "a1")]` — the local address listed under a
different node id — makes `Joiner.Do` issue a Join RPC whose destination
equals the local node's own address, so the claim as stated is false. -/
theorem joiner_self_address_counterexample :
    (Joiner.Do ⟨"a1", "n1", true⟩ false ⟨fun _ _ _ => JoinResult.ok none⟩
      ⟨fun _ => false, "context canceled", []⟩ [("n2", "a1")]).calls = ["a1"] ∧
    (NewJoiner "n1" "a1" true).localRaftAddr = "a1" ∧
    NewJoiner "n1" "a1" true = ⟨"a1", "n1", true⟩ :=
  ⟨rfl, rfl, rfl⟩

/-- C3 amended: the self-skip in `Joiner.Do` is keyed on the node id, not the
address — the candidate loop behaves identically to running on the candidate
list with all entries named like the local node removed (so those entries are
never attempted and consume no RPC, no backoff and no recorded error), but a
Join RPC can still be issued to the local node's address when that address
appears under a different node id or as a reported leader. -/
theorem joiner_skip_is_by_node_id (env : Env) (ctx : Ctx) (lid : String)
    (req : JoinPeerRequest) :
    ∀ (ns : List (String × String)) (k b : Nat) (calls errs : List String),
      doLoop env ctx lid req ns k b calls errs =
        doLoop env ctx lid req (ns.filter fun p => !(p.1 == lid)) k b calls errs := by
  intro ns
  induction ns with
  | nil => intro k b calls errs; rfl
  | cons p rest ih =>
    intro k b calls errs
    obtain ⟨name, addr⟩ := p
    by_cases hn : name = lid
    · rw [doLoop_skip hn]
      have hf : List.filter (fun p => !(p.1 == lid)) ((name, addr) :: rest) =
          List.filter (fun p => !(p.1 == lid)) rest := by
        simp [List.filter_cons, hn]
      rw [hf]
      exact ih k b calls errs
    · have hf : List.filter (fun p => !(p.1 == lid)) ((name, addr) :: rest) =
          (name, addr) :: List.filter (fun p => !(p.1 == lid)) rest := by
        simp [List.filter_cons, hn]
      rw [hf]
      cases hj : env.join k addr req with
      | ok r => rw [doLoop_ok hn hj, doLoop_ok hn hj]
      | fail resp e =>
        by_cases hc : e.code = Code.resourceExhausted ∧ ¬GetLeader resp = ""
        · cases hj2 : env.join (k + 1) (GetLeader resp) req with
          | ok r2 =>
            rw [doLoop_leader_ok hn hj hc.1 hc.2 hj2,
              doLoop_leader_ok hn hj hc.1 hc.2 hj2]
          | fail r2 e2 =>
            rw [doLoop_leader_fail hn hj hc.1 hc.2 hj2,
              doLoop_leader_fail hn hj hc.1 hc.2 hj2]
            by_cases hd : ctx.doneAt b
            · rw [if_pos hd, if_pos hd]
            · rw [if_neg hd, if_neg hd]; exact ih ..
        · rw [doLoop_plain_fail hn hj hc, doLoop_plain_fail hn hj hc]
          by_cases hd : ctx.doneAt b
          · rw [if_pos hd, if_pos hd]
          · rw [if_neg hd, if_neg hd]; exact ih ..

/-- C4: when the candidate loop exhausts every candidate (every candidate and
every leader-follow attempt failed), `Joiner.Do` returns an empty leader
address and the non-nil aggregated error, whose rendered message contains
every node/address entry of `remoteNodes` (hence every attempted one) and
every recorded per-attempt failure string. -/
theorem joiner_exhaustion_error_mentions_all
    (j : Joiner) (s : Bool) (env : Env) (ctx0 : Ctx)
    (nodes : List (String × String)) (errsR : List String)
    (h : (doLoop env (doCtx s nodes ctx0) j.localNodeID (mkJoinReq j)
        nodes 0 0 [] []).res = DoRes.exhausted errsR) :
    (j.Do s env ctx0 nodes).leaderAddr = "" ∧
    (j.Do s env ctx0 nodes).err = some (DoErr.couldNotJoin nodes errsR) ∧
    (∀ name addr, (name, addr) ∈ nodes →
      ∃ l r, (DoErr.couldNotJoin nodes errsR).message = l ++ (name ++ ":" ++ addr) ++ r) ∧
    (∀ e ∈ errsR,
      ∃ l r, (DoErr.couldNotJoin nodes errsR).message = l ++ e ++ r) := by
  rcases hL : doLoop env (doCtx s nodes ctx0) j.localNodeID (mkJoinReq j)
      nodes 0 0 [] [] with ⟨res, cs, bo⟩
  rw [hL] at h
  have hres : res = DoRes.exhausted errsR := h
  subst hres
  have hD := Do_eq_of_loop hL
  refine ⟨by rw [hD], by rw [hD], ?_, ?_⟩
  · intro name addr hm
    exact couldNotJoin_mentions_entry errsR hm
  · intro e he
    exact couldNotJoin_mentions_err he

/-- Witness for C4: two candidates, both failing with plain errors; the
aggregated error names both nodes and carries both recorded failures. -/
theorem joiner_exhaustion_error_mentions_all_witness :
    (Joiner.Do ⟨"a1", "n1", true⟩ false
        ⟨fun _ _ _ => JoinResult.fail none ⟨Code.unknown, "boom"⟩⟩
        ⟨fun _ => false, "context canceled", []⟩
        [("n2", "a2"), ("n3", "a3")]).leaderAddr = "" ∧
    (Joiner.Do ⟨"a1", "n1", true⟩ false
        ⟨fun _ _ _ => JoinResult.fail none ⟨Code.unknown, "boom"⟩⟩
        ⟨fun _ => false, "context canceled", []⟩
        [("n2", "a2"), ("n3", "a3")]).err =
      some (DoErr.couldNotJoin [("n2", "a2"), ("n3", "a3")]
        ["n2(a2): boom", "n3(a3): boom"]) ∧
    (∀ name addr, (name, addr) ∈ [("n2", "a2"), ("n3", "a3")] →
      ∃ l r, (DoErr.couldNotJoin [("n2", "a2"), ("n3", "a3")]
        ["n2(a2): boom", "n3(a3): boom"]).message = l ++ (name ++ ":" ++ addr) ++ r) ∧
    (∀ e ∈ ["n2(a2): boom", "n3(a3): boom"],
      ∃ l r, (DoErr.couldNotJoin [("n2", "a2"), ("n3", "a3")]
        ["n2(a2): boom", "n3(a3): boom"]).message = l ++ e ++ r) :=
  joiner_exhaustion_error_mentions_all ⟨"a1", "n1", true⟩ false
    ⟨fun _ _ _ => JoinResult.fail none ⟨Code.unknown, "boom"⟩⟩
    ⟨fun _ => false, "context canceled", []⟩
    [("n2", "a2"), ("n3", "a3")] ["n2(a2): boom", "n3(a3): boom"] rfl

/-- C5: when every `remoteNodes` entry is named like the local node (in
particular when the map is empty), `Joiner.Do` issues no RPC, waits no
backoff, and returns an empty leader address together with the non-nil
terminal error — never a silent success. -/
theorem joiner_empty_candidates_error
    (j : Joiner) (s : Bool) (env : Env) (ctx0 : Ctx)
    (nodes : List (String × String)) (h : ∀ p ∈ nodes, p.1 = j.localNodeID) :
    j.Do s env ctx0 nodes =
      { leaderAddr := "", err := some (DoErr.couldNotJoin nodes [])
        calls := [], backoffs := 0 } ∧
    (j.Do s env ctx0 nodes).err ≠ none := by
  have hL := doLoop_skip_all env (doCtx s nodes ctx0)
    j.localNodeID (mkJoinReq j) h 0 0 [] []
  have hD := Do_eq_of_loop hL
  exact ⟨hD, by rw [hD]; simp⟩

/-- Witness for C5: a candidate set holding only the local node's own entry. -/
theorem joiner_empty_candidates_error_witness :
    Joiner.Do ⟨"a1", "n1", true⟩ false ⟨fun _ _ _ => JoinResult.ok none⟩
        ⟨fun _ => false, "context canceled", []⟩ [("n1", "aX")] =
      { leaderAddr := ""
        err := some (DoErr.couldNotJoin [("n1", "aX")] [])
        calls := [], backoffs := 0 } ∧
    (Joiner.Do ⟨"a1", "n1", true⟩ false ⟨fun _ _ _ => JoinResult.ok none⟩
        ⟨fun _ => false, "context canceled", []⟩ [("n1", "aX")]).err ≠ none :=
  joiner_empty_candidates_error ⟨"a1", "n1", true⟩ false
    ⟨fun _ _ _ => JoinResult.ok none⟩ ⟨fun _ => false, "context canceled", []⟩
    [("n1", "aX")] (by decide)

/-- C6: when the context is done at the backoff wait following a failed
candidate, the loop stops there with the context outcome and the RPC trace
ends at that candidate (plain failure, first conjunct; failed leader-follow,
second conjunct) — no further Join RPC is issued; `Do` renders this as an
empty address with the context's error (third conjunct), which is a different
constructor from — never equal to — the candidates-exhausted error (fourth
conjunct). -/
theorem joiner_ctx_cancelled_during_backoff
    (env : Env) (ctx : Ctx) (lid : String) (req : JoinPeerRequest)
    (name addr : String) (rest : List (String × String))
    (k b : Nat) (calls errs : List String)
    (resp : Option JoinPeerResponse) (e : JoinError)
    (h1 : ¬name = lid) (h2 : env.join k addr req = JoinResult.fail resp e)
    (hd : ctx.doneAt b = true) :
    (¬(e.code = Code.resourceExhausted ∧ ¬GetLeader resp = "") →
      doLoop env ctx lid req ((name, addr) :: rest) k b calls errs =
        { res := DoRes.ctxCancelled, calls := calls ++ [addr], backoffs := b }) ∧
    (∀ r2 e2, e.code = Code.resourceExhausted → ¬GetLeader resp = "" →
      env.join (k + 1) (GetLeader resp) req = JoinResult.fail r2 e2 →
      doLoop env ctx lid req ((name, addr) :: rest) k b calls errs =
        { res := DoRes.ctxCancelled
          calls := calls ++ [addr, GetLeader resp], backoffs := b }) ∧
    (∀ (j : Joiner) (s : Bool) (env2 : Env) (ctx0 : Ctx)
      (nodes : List (String × String)) (cs : List String) (bo : Nat),
      doLoop env2 (doCtx s nodes ctx0) j.localNodeID (mkJoinReq j) nodes 0 0 [] [] =
        { res := DoRes.ctxCancelled, calls := cs, backoffs := bo } →
      j.Do s env2 ctx0 nodes =
        { leaderAddr := "", err := some (DoErr.ctxCancelled ctx0.errMsg)
          calls := cs, backoffs := bo }) ∧
    (∀ (m : String) (remote : List (String × String)) (es : List String),
      DoErr.ctxCancelled m ≠ DoErr.couldNotJoin remote es) := by
  refine ⟨?_, ?_, ?_, ?_⟩
  · intro hc
    rw [doLoop_plain_fail h1 h2 hc, if_pos hd]
  · intro r2 e2 h3 h4 h5
    rw [doLoop_leader_fail h1 h2 h3 h4 h5, if_pos hd]
  · intro j s env2 ctx0 nodes cs bo h
    rw [Do_eq_of_loop h]
  · intro m remote es
    simp

/-- Witness for C6: a single plainly failing candidate with the context done
at the first backoff; `Do` returns the context error with the trace stopping
at that candidate. -/
theorem joiner_ctx_cancelled_during_backoff_witness :
    doLoop ⟨fun _ _ _ => JoinResult.fail none ⟨Code.unknown, "boom"⟩⟩
        ⟨fun _ => true, "context canceled", []⟩ "n1" ⟨"n1", "a1", true⟩
        [("n2", "a2"), ("n3", "a3")] 0 0 [] [] =
      { res := DoRes.ctxCancelled, calls := ["a2"], backoffs := 0 } ∧
    Joiner.Do ⟨"a1", "n1", true⟩ false
        ⟨fun _ _ _ => JoinResult.fail none ⟨Code.unknown, "boom"⟩⟩
        ⟨fun _ => true, "context canceled", []⟩ [("n2", "a2"), ("n3", "a3")] =
      { leaderAddr := "", err := some (DoErr.ctxCancelled "context canceled")
        calls := ["a2"], backoffs := 0 } :=
  ⟨(joiner_ctx_cancelled_during_backoff
      ⟨fun _ _ _ => JoinResult.fail none ⟨Code.unknown, "boom"⟩⟩
      ⟨fun _ => true, "context canceled", []⟩ "n1" ⟨"n1", "a1", true⟩
      "n2" "a2" [("n3", "a3")] 0 0 [] [] none ⟨Code.unknown, "boom"⟩
      (by decide) rfl rfl).1 (by decide),
   (joiner_ctx_cancelled_during_backoff
      ⟨fun _ _ _ => JoinResult.fail none ⟨Code.unknown, "boom"⟩⟩
      ⟨fun _ => true, "context canceled", []⟩ "n1" ⟨"n1", "a1", true⟩
      "n2" "a2" [("n3", "a3")] 0 0 [] [] none ⟨Code.unknown, "boom"⟩
      (by decide) rfl rfl).2.2.1 ⟨"a1", "n1", true⟩ false
     ⟨fun _ _ _ => JoinResult.fail none ⟨Code.unknown, "boom"⟩⟩
     ⟨fun _ => true, "context canceled", []⟩ [("n2", "a2"), ("n3", "a3")]
     ["a2"] 0 rfl⟩

/-- C7 counterexample: with a single candidate that fails, the backoff
`select` still runs after this final candidate — it sits at the end of the
loop body. Cancelling the context at that point makes `Do` return the
context's error instead of the terminal exhausted error (first run), and with
the context live, `Do` completes one full backoff wait (`backoffs = 1`) after
the last candidate before returning its terminal error (second run); both
contradict "no backoff wait after the last candidate". -/
theorem joiner_backoff_after_last_counterexample :
    Joiner.Do ⟨"a1", "n1", true⟩ false
        ⟨fun _ _ _ => JoinResult.fail none ⟨Code.unknown, "boom"⟩⟩
        ⟨fun _ => true, "context canceled", []⟩ [("n2", "a2")] =
      { leaderAddr := "", err := some (DoErr.ctxCancelled "context canceled")
        calls := ["a2"], backoffs := 0 } ∧
    Joiner.Do ⟨"a1", "n1", true⟩ false
        ⟨fun _ _ _ => JoinResult.fail none ⟨Code.unknown, "boom"⟩⟩
        ⟨fun _ => false, "context canceled", []⟩ [("n2", "a2")] =
      { leaderAddr := ""
        err := some (DoErr.couldNotJoin [("n2", "a2")] ["n2(a2): boom"])
        calls := ["a2"], backoffs := 1 } :=
  ⟨rfl, rfl⟩

/-- C7 amended: the backoff `select` runs after every failed candidate
attempt, including the last one, on both failure branches. For a plain
failure (no leader follow-up) the loop either returns the context outcome
(first conjunct) or completes one more 50 ms wait before continuing (second
conjunct), and after a failed final candidate one full backoff wait completes
before the terminal exhausted error is returned (third conjunct,
`backoffs = b + 1`). For an attempt failing through the resource-exhausted
leader-follow path the very same `select` runs: context done returns the
context outcome (fourth conjunct), otherwise the wait completes before the
next candidate (fifth conjunct), and after a failed final candidate the wait
completes before the terminal error (sixth conjunct, `backoffs = b + 1`). -/
theorem joiner_backoff_after_every_failed_attempt
    (env : Env) (ctx : Ctx) (lid : String) (req : JoinPeerRequest)
    (name addr : String) (rest : List (String × String))
    (k b : Nat) (calls errs : List String)
    (resp : Option JoinPeerResponse) (e : JoinError)
    (h1 : ¬name = lid) (h2 : env.join k addr req = JoinResult.fail resp e) :
    (¬(e.code = Code.resourceExhausted ∧ ¬GetLeader resp = "") →
      ctx.doneAt b = true →
      doLoop env ctx lid req ((name, addr) :: rest) k b calls errs =
        { res := DoRes.ctxCancelled, calls := calls ++ [addr], backoffs := b }) ∧
    (¬(e.code = Code.resourceExhausted ∧ ¬GetLeader resp = "") →
      ctx.doneAt b = false →
      doLoop env ctx lid req ((name, addr) :: rest) k b calls errs =
        doLoop env ctx lid req rest (k + 1) (b + 1) (calls ++ [addr])
          (errs ++ [name ++ "(" ++ addr ++ "): " ++ e.msg])) ∧
    (¬(e.code = Code.resourceExhausted ∧ ¬GetLeader resp = "") →
      ctx.doneAt b = false →
      doLoop env ctx lid req [(name, addr)] k b calls errs =
        { res := DoRes.exhausted (errs ++ [name ++ "(" ++ addr ++ "): " ++ e.msg])
          calls := calls ++ [addr], backoffs := b + 1 }) ∧
    (∀ r2 e2, e.code = Code.resourceExhausted → ¬GetLeader resp = "" →
      env.join (k + 1) (GetLeader resp) req = JoinResult.fail r2 e2 →
      ctx.doneAt b = true →
      doLoop env ctx lid req ((name, addr) :: rest) k b calls errs =
        { res := DoRes.ctxCancelled
          calls := calls ++ [addr, GetLeader resp], backoffs := b }) ∧
    (∀ r2 e2, e.code = Code.resourceExhausted → ¬GetLeader resp = "" →
      env.join (k + 1) (GetLeader resp) req = JoinResult.fail r2 e2 →
      ctx.doneAt b = false →
      doLoop env ctx lid req ((name, addr) :: rest) k b calls errs =
        doLoop env ctx lid req rest (k + 2) (b + 1)
          (calls ++ [addr, GetLeader resp])
          (errs ++ ["leader(" ++ GetLeader resp ++ "): " ++ e2.msg])) ∧
    (∀ r2 e2, e.code = Code.resourceExhausted → ¬GetLeader resp = "" →
      env.join (k + 1) (GetLeader resp) req = JoinResult.fail r2 e2 →
      ctx.doneAt b = false →
      doLoop env ctx lid req [(name, addr)] k b calls errs =
        { res := DoRes.exhausted
            (errs ++ ["leader(" ++ GetLeader resp ++ "): " ++ e2.msg])
          calls := calls ++ [addr, GetLeader resp], backoffs := b + 1 }) := by
  refine ⟨?_, ?_, ?_, ?_, ?_, ?_⟩
  · intro h3 hd
    rw [doLoop_plain_fail h1 h2 h3, if_pos hd]
  · intro h3 hd
    rw [doLoop_plain_fail h1 h2 h3, if_neg (by rw [hd]; exact Bool.false_ne_true)]
  · intro h3 hd
    rw [doLoop_plain_fail h1 h2 h3, if_neg (by rw [hd]; exact Bool.false_ne_true)]
    rfl
  · intro r2 e2 h3 h4 h5 hd
    rw [doLoop_leader_fail h1 h2 h3 h4 h5, if_pos hd]
  · intro r2 e2 h3 h4 h5 hd
    rw [doLoop_leader_fail h1 h2 h3 h4 h5,
      if_neg (by rw [hd]; exact Bool.false_ne_true)]
  · intro r2 e2 h3 h4 h5 hd
    rw [doLoop_leader_fail h1 h2 h3 h4 h5,
      if_neg (by rw [hd]; exact Bool.false_ne_true)]
    rfl

/-- Witness for the amended C7: a single plainly failing candidate with a
live context completes one backoff wait before the terminal error (first
conjunct), and a single candidate failing through the leader-follow path
likewise completes one backoff wait after the follow-up fails (second
conjunct). -/
theorem joiner_backoff_after_every_failed_attempt_witness :
    doLoop ⟨fun _ _ _ => JoinResult.fail none ⟨Code.unknown, "boom"⟩⟩
        ⟨fun _ => false, "context canceled", []⟩ "n1" ⟨"n1", "a1", true⟩
        [("n2", "a2")] 0 0 [] [] =
      { res := DoRes.exhausted ["n2(a2): boom"], calls := ["a2"], backoffs := 1 } ∧
    doLoop ⟨fun _ _ _ => JoinResult.fail (some ⟨"aL"⟩) ⟨Code.resourceExhausted, "busy"⟩⟩
        ⟨fun _ => false, "context canceled", []⟩ "n1" ⟨"n1", "a1", true⟩
        [("n2", "a2")] 0 0 [] [] =
      { res := DoRes.exhausted ["leader(aL): busy"]
        calls := ["a2", "aL"], backoffs := 1 } :=
  ⟨(joiner_backoff_after_every_failed_attempt
      ⟨fun _ _ _ => JoinResult.fail none ⟨Code.unknown, "boom"⟩⟩
      ⟨fun _ => false, "context canceled", []⟩ "n1" ⟨"n1", "a1", true⟩
      "n2" "a2" [] 0 0 [] [] none ⟨Code.unknown, "boom"⟩
      (by decide) rfl).2.2.1 (by decide) rfl,
   (joiner_backoff_after_every_failed_attempt
      ⟨fun _ _ _ => JoinResult.fail (some ⟨"aL"⟩) ⟨Code.resourceExhausted, "busy"⟩⟩
      ⟨fun _ => false, "context canceled", []⟩ "n1" ⟨"n1", "a1", true⟩
      "n2" "a2" [] 0 0 [] [] (some ⟨"aL"⟩) ⟨Code.resourceExhausted, "busy"⟩
      (by decide) rfl).2.2.2.2.2 (some ⟨"aL"⟩) ⟨Code.resourceExhausted, "busy"⟩
     rfl (by decide) rfl rfl⟩

/-! ## Resolver (`ResolveRemoteNodes`) -/

/-- The reader's view of cluster membership: node id → address (`""` when the
address cannot be resolved), plus the local node's name; mirrors
`mockClusterStateReader` in `cluster/service_test.go`. -/
structure ClusterStateReader where
  members : List (String × String)
  localName : String

/-- Go map lookup of a node's configured Raft port, with Go's zero value when
the node has no entry. -/
def lookupPort (serverPortMap : List (String × Nat)) (id : String) : Nat :=
  match serverPortMap.find? (fun p => p.1 == id) with
  | none => 0
  | some p => p.2

/-- Modelled from the spec: the body of `ResolveRemoteNodes` is not under
`src/` — only its callers in `cluster/service_test.go` are. Spec §4.2: "for
each node id known to the reader, resolve its address; if resolution yields a
non-empty address, combine it with the node's configured port and include it;
if resolution yields empty, the node is silently omitted from the result
(treated as not yet discoverable, never as an error)", the combination being
a `host:port` string. -/
def ResolveRemoteNodes (reader : ClusterStateReader)
    (serverPortMap : List (String × Nat)) : List (String × String) :=
  reader.members.filterMap fun p =>
    if p.2 = "" then none
    else some (p.1, p.2 ++ ":" ++ toString (lookupPort serverPortMap p.1))

/-- The resolved map has exactly as many entries as there are members with a
non-empty address. -/
theorem resolve_length (serverPortMap : List (String × Nat)) :
    ∀ ms : List (String × String),
      (ms.filterMap fun p =>
        if p.2 = "" then none
        else some (p.1, p.2 ++ ":" ++ toString (lookupPort serverPortMap p.1))).length =
      ms.countP (fun p => !(p.2 == "")) := by
  intro ms
  induction ms with
  | nil => rfl
  | cons p t ih =>
    by_cases hp : p.2 = ""
    · simp [List.filterMap_cons, List.countP_cons, hp, ih]
    · simp [List.filterMap_cons, List.countP_cons, hp, ih]

/-- C8: with member ids unique (as in a Go map), `ResolveRemoteNodes` contains
one entry per member whose address resolves non-empty, each being
`addr:port` with that member's configured port (first conjunct); no entry for
any member whose address resolves empty (second conjunct); its size equals
the count of resolvable members (third conjunct); empty membership yields an
empty map (fourth conjunct). -/
theorem resolve_remote_nodes_spec (reader : ClusterStateReader)
    (serverPortMap : List (String × Nat))
    (hnd : (reader.members.map Prod.fst).Nodup) :
    (∀ name addr, (name, addr) ∈ reader.members → ¬addr = "" →
      (name, addr ++ ":" ++ toString (lookupPort serverPortMap name)) ∈
        ResolveRemoteNodes reader serverPortMap) ∧
    (∀ name addr, (name, addr) ∈ reader.members → addr = "" →
      ∀ x, (name, x) ∉ ResolveRemoteNodes reader serverPortMap) ∧
    (ResolveRemoteNodes reader serverPortMap).length =
      reader.members.countP (fun p => !(p.2 == "")) ∧
    (reader.members = [] → ResolveRemoteNodes reader serverPortMap = []) := by
  refine ⟨?_, ?_, ?_, ?_⟩
  · intro name addr hm hne
    rw [ResolveRemoteNodes, List.mem_filterMap]
    exact ⟨(name, addr), hm, by simp [hne]⟩
  · intro name addr hm he x hx
    rw [ResolveRemoteNodes, List.mem_filterMap] at hx
    obtain ⟨q, hq, hfq⟩ := hx
    by_cases hq2 : q.2 = ""
    · rw [if_pos hq2] at hfq; cases hfq
    · rw [if_neg hq2] at hfq
      have hq1 : q.1 = name := congrArg Prod.fst (Option.some.inj hfq)
      have heq : q = (name, addr) :=
        List.inj_on_of_nodup_map hnd hq hm (by simpa using hq1)
      rw [heq] at hq2
      exact hq2 he
  · exact resolve_length serverPortMap reader.members
  · intro h
    rw [ResolveRemoteNodes, h]
    rfl

/-- Witness for C8: the three-member cluster of
`TestResolveRemoteNodesWithUnresolvableNodes` — `node2` unresolvable, raft
port 8300 — yields entries for `node1` and `node3` only. -/
theorem resolve_remote_nodes_spec_witness :
    (∀ name addr,
      (name, addr) ∈ (ClusterStateReader.mk
        [("node1", "172.18.0.4"), ("node2", ""), ("node3", "172.18.0.6")]
        "node1").members → ¬addr = "" →
      (name, addr ++ ":" ++ toString (lookupPort
          [("node1", 8300), ("node2", 8300), ("node3", 8300)] name)) ∈
        ResolveRemoteNodes (ClusterStateReader.mk
          [("node1", "172.18.0.4"), ("node2", ""), ("node3", "172.18.0.6")]
          "node1") [("node1", 8300), ("node2", 8300), ("node3", 8300)]) ∧
    (∀ name addr,
      (name, addr) ∈ (ClusterStateReader.mk
        [("node1", "172.18.0.4"), ("node2", ""), ("node3", "172.18.0.6")]
        "node1").members → addr = "" →
      ∀ x, (name, x) ∉ ResolveRemoteNodes (ClusterStateReader.mk
        [("node1", "172.18.0.4"), ("node2", ""), ("node3", "172.18.0.6")]
        "node1") [("node1", 8300), ("node2", 8300), ("node3", 8300)]) ∧
    (ResolveRemoteNodes (ClusterStateReader.mk
      [("node1", "172.18.0.4"), ("node2", ""), ("node3", "172.18.0.6")]
      "node1") [("node1", 8300), ("node2", 8300), ("node3", 8300)]).length =
      (ClusterStateReader.mk
        [("node1", "172.18.0.4"), ("node2", ""), ("node3", "172.18.0.6")]
        "node1").members.countP (fun p => !(p.2 == "")) ∧
    ((ClusterStateReader.mk
      [("node1", "172.18.0.4"), ("node2", ""), ("node3", "172.18.0.6")]
      "node1").members = [] →
      ResolveRemoteNodes (ClusterStateReader.mk
        [("node1", "172.18.0.4"), ("node2", ""), ("node3", "172.18.0.6")]
        "node1") [("node1", 8300), ("node2", 8300), ("node3", 8300)] = []) :=
  resolve_remote_nodes_spec
    (ClusterStateReader.mk
      [("node1", "172.18.0.4"), ("node2", ""), ("node3", "172.18.0.6")] "node1")
    [("node1", 8300), ("node2", 8300), ("node3", 8300)] (by decide)

/-- C9: the sentry tracing span never affects `Joiner.Do`'s observable
behaviour — for every peer-joiner behaviour, context and candidate set, the
returned leader address and error (and even the RPC trace and backoff count)
are identical with the span enabled and disabled. -/
theorem joiner_sentry_span_no_effect (env : Env) (ctx0 : Ctx) (j : Joiner)
    (nodes : List (String × String)) :
    j.Do true env ctx0 nodes = j.Do false env ctx0 nodes := by
  have hdone : (doCtx true nodes ctx0).doneAt = (doCtx false nodes ctx0).doneAt := by
    rw [doCtx_doneAt, doCtx_doneAt]
  have hL := doLoop_doneAt_congr env hdone j.localNodeID (mkJoinReq j)
    nodes 0 0 [] []
  rcases hE : doLoop env (doCtx false nodes ctx0) j.localNodeID (mkJoinReq j)
      nodes 0 0 [] [] with ⟨res, cs, bo⟩
  have hT : doLoop env (doCtx true nodes ctx0) j.localNodeID (mkJoinReq j)
      nodes 0 0 [] [] = { res := res, calls := cs, backoffs := bo } := by
    rw [hL, hE]
  rw [Do_eq_of_loop hT, Do_eq_of_loop hE]
  cases res <;> rfl

/-- C10: a candidate whose `Join` fails with a nil response keeps the
leader-follow check total: the protobuf getter reads the leader as empty
(first conjunct), so — whatever the status code, even `ResourceExhausted` —
no leader-follow RPC is issued; the candidate's failure is recorded under
`name(addr)` and the loop either returns the context outcome at the backoff
or continues to the next candidate, its RPC trace gaining only `addr`. -/
theorem joiner_nil_response_total
    (env : Env) (ctx : Ctx) (lid : String) (req : JoinPeerRequest)
    (name addr : String) (rest : List (String × String))
    (k b : Nat) (calls errs : List String) (e : JoinError)
    (h1 : ¬name = lid) (h2 : env.join k addr req = JoinResult.fail none e) :
    GetLeader (none : Option JoinPeerResponse) = "" ∧
    (ctx.doneAt b = true →
      doLoop env ctx lid req ((name, addr) :: rest) k b calls errs =
        { res := DoRes.ctxCancelled, calls := calls ++ [addr], backoffs := b }) ∧
    (ctx.doneAt b = false →
      doLoop env ctx lid req ((name, addr) :: rest) k b calls errs =
        doLoop env ctx lid req rest (k + 1) (b + 1) (calls ++ [addr])
          (errs ++ [name ++ "(" ++ addr ++ "): " ++ e.msg])) := by
  have h3 : ¬(e.code = Code.resourceExhausted ∧ ¬GetLeader (none : Option JoinPeerResponse) = "") := by
    simp [GetLeader]
  refine ⟨rfl, ?_, ?_⟩
  · intro hd
    rw [doLoop_plain_fail h1 h2 h3, if_pos hd]
  · intro hd
    rw [doLoop_plain_fail h1 h2 h3, if_neg (by rw [hd]; exact Bool.false_ne_true)]

/-- Witness for C10: the interesting case — a nil response carrying the
`ResourceExhausted` code — still takes the plain-failure path and issues no
leader-follow RPC. -/
theorem joiner_nil_response_total_witness :
    GetLeader (none : Option JoinPeerResponse) = "" ∧
    doLoop ⟨fun _ _ _ => JoinResult.fail none ⟨Code.resourceExhausted, "busy"⟩⟩
        ⟨fun _ => false, "context canceled", []⟩ "n1" ⟨"n1", "a1", true⟩
        [("n2", "a2")] 0 0 [] [] =
      doLoop ⟨fun _ _ _ => JoinResult.fail none ⟨Code.resourceExhausted, "busy"⟩⟩
        ⟨fun _ => false, "context canceled", []⟩ "n1" ⟨"n1", "a1", true⟩
        [] 1 1 ["a2"] ["n2(a2): busy"] :=
  ⟨(joiner_nil_response_total
      ⟨fun _ _ _ => JoinResult.fail none ⟨Code.resourceExhausted, "busy"⟩⟩
      ⟨fun _ => false, "context canceled", []⟩ "n1" ⟨"n1", "a1", true⟩
      "n2" "a2" [] 0 0 [] [] ⟨Code.resourceExhausted, "busy"⟩
      (by decide) rfl).1,
   (joiner_nil_response_total
      ⟨fun _ _ _ => JoinResult.fail none ⟨Code.resourceExhausted, "busy"⟩⟩
      ⟨fun _ => false, "context canceled", []⟩ "n1" ⟨"n1", "a1", true⟩
      "n2" "a2" [] 0 0 [] [] ⟨Code.resourceExhausted, "busy"⟩
      (by decide) rfl).2.2 rfl⟩

end WeaviateBootstrap
